import Mathlib

/-!
Shallow embedding of `checks_urls_response_code.py`: the two-stage URL probe
(`fetch_status`), the console classification helpers (`color_for_status`,
`emoji_for_status`) and the concurrent dispatch loop of `check_urls`
(ThreadPoolExecutor + as_completed), together with theorems settling the
specification claims about them.
-/

namespace ChecksUrls

/-- HTTP request methods used by the probe: `requests.head` and `requests.get`. -/
inductive Method where
  | head
  | get
deriving DecidableEq, Repr

/-- What the transport does on one request: return a status code, raise a
`requests.RequestException` (transport failure), or raise some other
exception (which `fetch_status` does not catch). -/
inductive TransportEvent where
  | status (code : Int)
  | transportError
  | otherError
deriving DecidableEq, Repr

/-- The probe outcome: an integer status code, or the string `"ERROR"` marker. -/
inductive ProbeOutcome where
  | code (n : Int)
  | error
deriving DecidableEq, Repr

/-- A transport for one URL: the response behaviour per method. -/
abbrev Transport := Method → TransportEvent

/-- Embedding of `fetch_status` (lines 47-64). Returns the result of the
Python call together with the list of requests actually issued, in order.
`Except.ok` is a normal return, `Except.error ()` is an exception that
escapes `fetch_status` (only possible for a non-`RequestException`). -/
def fetch_status (t : Transport) : Except Unit ProbeOutcome × List Method :=
  match t Method.head with
  | .transportError => (Except.ok ProbeOutcome.error, [Method.head])
  | .otherError => (Except.error (), [Method.head])
  | .status c =>
    if 400 ≤ c then
      match t Method.get with
      | .transportError => (Except.ok ProbeOutcome.error, [Method.head, Method.get])
      | .otherError => (Except.error (), [Method.head, Method.get])
      | .status c2 => (Except.ok (ProbeOutcome.code c2), [Method.head, Method.get])
    else (Except.ok (ProbeOutcome.code c), [Method.head])

/-- One input row as built by `check_urls` from the CSV (line 133). -/
structure InputRecord where
  URL : String
  Langs : String
  Status : String
deriving DecidableEq, Repr

/-- One result row as appended by the dispatch loop (lines 153-158). -/
structure ResultRecord where
  URL : String
  Langs : String
  ResponseCode : ProbeOutcome
  Status : String
deriving DecidableEq, Repr

/-- A transport for every URL. -/
abbrev NetTransport := String → Transport

/-- One probe task plus the dispatcher's per-task boundary (lines 146-158):
`fut.result()` re-raises any exception escaping `fetch_status`; the
`except Exception` converts it to the `"ERROR"` marker, and the result row
is built from the originating input row. -/
def runTask (t : NetTransport) (r : InputRecord) : ResultRecord :=
  let code : ProbeOutcome :=
    match (fetch_status (t r.URL)).1 with
    | .ok c => c
    | .error _ => ProbeOutcome.error
  { URL := r.URL, Langs := r.Langs, ResponseCode := code, Status := r.Status }

/-- Embedding of the result-collection loop of `check_urls` (lines 140-158):
`as_completed` yields each submitted future exactly once, paired with its
row via `future_map`, in an arbitrary completion order; the loop appends one
result row per future. `completionOrder` is that arbitrary ordering of the
input rows (a permutation of the submitted rows). -/
def check_urls (t : NetTransport) (completionOrder : List InputRecord) : List ResultRecord :=
  completionOrder.map (runTask t)

/-- The (URL, Langs, Status) triple carried by an input row. -/
def inputTriple (r : InputRecord) : String × String × String := (r.URL, r.Langs, r.Status)

/-- The (URL, Langs, Status) triple carried by a result row. -/
def resultTriple (r : ResultRecord) : String × String × String := (r.URL, r.Langs, r.Status)

/-! Console classification (lines 67-93). Colorama constants are the ANSI
escape sequences they stand for. -/

/-- colorama `Fore.GREEN`. -/
def GREEN : String := "\x1b[32m"

/-- colorama `Fore.YELLOW`. -/
def YELLOW : String := "\x1b[33m"

/-- colorama `Fore.RED`. -/
def RED : String := "\x1b[31m"

/-- colorama `Fore.LIGHTBLACK_EX`. -/
def LIGHTBLACK_EX : String := "\x1b[90m"

/-- colorama `Style.RESET_ALL`. -/
def RESET_ALL : String := "\x1b[0m"

/-- `str(code)` for the displayed value. -/
def statusText (code : ProbeOutcome) : String :=
  match code with
  | .code n => toString n
  | .error => "ERROR"

/-- Embedding of `color_for_status` (lines 67-78): the `isinstance(code, int)`
branch corresponds to `ProbeOutcome.code`; falling out of the range chain
(or a non-int code) yields the gray `"ERROR"` string. -/
def color_for_status (code : ProbeOutcome) : String :=
  match code with
  | .code n =>
    if 200 ≤ n ∧ n < 300 then GREEN ++ toString n ++ RESET_ALL
    else if 300 ≤ n ∧ n < 400 then YELLOW ++ toString n ++ RESET_ALL
    else if 400 ≤ n ∧ n < 600 then RED ++ toString n ++ RESET_ALL
    else LIGHTBLACK_EX ++ "ERROR" ++ RESET_ALL
  | .error => LIGHTBLACK_EX ++ "ERROR" ++ RESET_ALL

/-- Embedding of `emoji_for_status` (lines 81-93). -/
def emoji_for_status (code : ProbeOutcome) : String :=
  match code with
  | .code n =>
    if 200 ≤ n ∧ n < 300 then "🟩"
    else if 300 ≤ n ∧ n < 400 then "🟨"
    else if 400 ≤ n ∧ n < 600 then "🟥"
    else "⚫"
  | .error => "⚫"

/-- The four display categories named by the spec: success 2xx, redirect 3xx,
client/server error 400-599, unknown/failed otherwise. -/
inductive StatusCategory where
  | success
  | redirect
  | httpError
  | unknown
deriving DecidableEq, Repr

/-- The common classifier both display functions share: the range boundaries
200-299 / 300-399 / 400-599 / otherwise-unknown. -/
def statusCategory (code : ProbeOutcome) : StatusCategory :=
  match code with
  | .code n =>
    if 200 ≤ n ∧ n < 300 then StatusCategory.success
    else if 300 ≤ n ∧ n < 400 then StatusCategory.redirect
    else if 400 ≤ n ∧ n < 600 then StatusCategory.httpError
    else StatusCategory.unknown
  | .error => StatusCategory.unknown

/-- How `color_for_status` renders each category. -/
def colorRender (cat : StatusCategory) (code : ProbeOutcome) : String :=
  match cat with
  | .success => GREEN ++ statusText code ++ RESET_ALL
  | .redirect => YELLOW ++ statusText code ++ RESET_ALL
  | .httpError => RED ++ statusText code ++ RESET_ALL
  | .unknown => LIGHTBLACK_EX ++ "ERROR" ++ RESET_ALL

/-- How `emoji_for_status` renders each category. -/
def emojiRender (cat : StatusCategory) : String :=
  match cat with
  | .success => "🟩"
  | .redirect => "🟨"
  | .httpError => "🟥"
  | .unknown => "⚫"

/-! State machine of the thread pool (lines 140-158): `ThreadPoolExecutor`
with `max_workers = K` starts submitted tasks in submission order, never with
more than `K` running at once; any running task may finish; the `with` block
and the exhausted `as_completed` loop return only once nothing is pending or
running. Tasks are identified by their submission index. -/

/-- A snapshot of the dispatch run: indices not yet started (in submission
order), indices currently executing, indices completed (in completion order),
and whether `check_urls` has returned from the dispatch block. -/
structure PoolState where
  pending : List Nat
  running : List Nat
  done : List Nat
  returned : Bool
deriving DecidableEq, Repr

/-- The state right after `executor.submit` was called for all `n` rows. -/
def initState (n : Nat) : PoolState :=
  { pending := List.range n, running := [], done := [], returned := false }

/-- One scheduler step of the pool with concurrency ceiling `K`. -/
inductive Step (K : Nat) : PoolState → PoolState → Prop
  | start (i : Nat) (p run d : List Nat) (hK : run.length < K) :
      Step K ⟨i :: p, run, d, false⟩ ⟨p, i :: run, d, false⟩
  | finish (i : Nat) (p r₁ r₂ d : List Nat) :
      Step K ⟨p, r₁ ++ i :: r₂, d, false⟩ ⟨p, r₁ ++ r₂, i :: d, false⟩
  | ret (d : List Nat) :
      Step K ⟨[], [], d, false⟩ ⟨[], [], d, true⟩

/-- Reachable snapshots of a dispatch run over `n` rows with ceiling `K`. -/
inductive Reachable (K n : Nat) : PoolState → Prop
  | init : Reachable K n (initState n)
  | step {s s' : PoolState} : Reachable K n s → Step K s s' → Reachable K n s'

/-! Helper lemmas shared by the pool theorems. -/

/-- Every reachable snapshot partitions exactly the submitted task indices
among pending, running and done. -/
theorem pool_tracks_all_tasks (K n : Nat) (s : PoolState) (h : Reachable K n s) :
    (s.pending ++ s.running ++ s.done).Perm (List.range n) := by
  induction h with
  | init => simp [initState]
  | step hr hs ih =>
    refine List.Perm.trans ?_ ih
    cases hs with
    | start i p run d hK =>
      exact List.Perm.append_right d List.perm_middle
    | finish i p r₁ r₂ d =>
      have h1 : List.Perm ((p ++ (r₁ ++ r₂)) ++ i :: d) ((p ++ (i :: (r₁ ++ r₂))) ++ d) :=
        List.Perm.trans List.perm_middle (List.Perm.append_right d List.perm_middle.symm)
      have h2 : List.Perm ((p ++ (i :: (r₁ ++ r₂))) ++ d) ((p ++ (r₁ ++ i :: r₂)) ++ d) :=
        List.Perm.append_right d (List.Perm.append_left p List.perm_middle.symm)
      exact h1.trans h2
    | ret d => exact List.Perm.refl _

/-- Once `check_urls` has returned from the dispatch block, nothing is
pending or running. -/
theorem pool_returned_empty (K n : Nat) (s : PoolState) (h : Reachable K n s) :
    s.returned = true → s.pending = [] ∧ s.running = [] := by
  induction h with
  | init => intro hret; simp [initState] at hret
  | step hr hs ih =>
    intro hret
    cases hs with
    | start i p run d hK => simp at hret
    | finish i p r₁ r₂ d => simp at hret
    | ret d => exact ⟨rfl, rfl⟩

/-- C1: for every input sequence of N records (duplicates included) and every
completion order, dispatch returns exactly N result records and the multiset
of (URL, Langs, Status) triples in the output equals that of the input: no
record is dropped or duplicated, regardless of completion order or probe
failure. -/
theorem dispatch_preserves_records (t : NetTransport) (rows order : List InputRecord)
    (h : List.Perm order rows) :
    (check_urls t order).length = rows.length ∧
      List.Perm ((check_urls t order).map resultTriple) (rows.map inputTriple) := by
  constructor
  · simpa [check_urls] using h.length_eq
  · have hmap : (check_urls t order).map resultTriple = order.map inputTriple := by
      simp only [check_urls, List.map_map]
      rfl
    rw [hmap]
    exact h.map inputTriple

/-- Witness for C1 at a concrete one-record input. -/
theorem dispatch_preserves_records_witness :
    (check_urls (fun _ _ => TransportEvent.status 200)
        [{ URL := "https://ok.test", Langs := "en", Status := "" }]).length =
      ([{ URL := "https://ok.test", Langs := "en", Status := "" }] : List InputRecord).length ∧
      List.Perm
        ((check_urls (fun _ _ => TransportEvent.status 200)
            [{ URL := "https://ok.test", Langs := "en", Status := "" }]).map resultTriple)
        (([{ URL := "https://ok.test", Langs := "en", Status := "" }] :
            List InputRecord).map inputTriple) :=
  dispatch_preserves_records _ _ _ (List.Perm.refl _)

/-- C2: a transport-level exception (`requests.RequestException`) on the HEAD
stage, or on the GET stage once it is reached, makes `fetch_status` return the
ERROR marker normally — the exception is not propagated, and the remaining
stage sequence is abandoned at whichever stage raised. -/
theorem fetch_status_no_propagation (t : Transport) :
    (t Method.head = TransportEvent.transportError →
      fetch_status t = (Except.ok ProbeOutcome.error, [Method.head])) ∧
    (∀ c : Int, t Method.head = TransportEvent.status c → 400 ≤ c →
      t Method.get = TransportEvent.transportError →
      fetch_status t = (Except.ok ProbeOutcome.error, [Method.head, Method.get])) := by
  constructor
  · intro hh
    simp [fetch_status, hh]
  · intro c hh hc hg
    simp [fetch_status, hh, hc, hg]

/-- Witness for C2: HEAD returns 500, GET raises a transport exception. -/
theorem fetch_status_no_propagation_witness :
    fetch_status (fun m => match m with
      | Method.head => TransportEvent.status 500
      | Method.get => TransportEvent.transportError) =
      (Except.ok ProbeOutcome.error, [Method.head, Method.get]) :=
  (fetch_status_no_propagation _).2 500 rfl (by decide) rfl

/-- C3: when a record's probe task raises an exception that even
`fetch_status` fails to catch, the dispatcher's per-task boundary records the
ERROR marker as that record's ResponseCode, the record still appears in the
output, and the dispatch still produces one result per input row. -/
theorem dispatcher_isolates_task_failure (t : NetTransport) (rows order : List InputRecord)
    (r : InputRecord) (h : List.Perm order rows) (hr : r ∈ rows)
    (hex : (fetch_status (t r.URL)).1 = Except.error ()) :
    (runTask t r).ResponseCode = ProbeOutcome.error ∧
      runTask t r ∈ check_urls t order ∧
      (check_urls t order).length = rows.length := by
  refine ⟨?_, ?_, ?_⟩
  · simp [runTask, hex]
  · exact List.mem_map_of_mem (runTask t) (h.mem_iff.mpr hr)
  · simpa [check_urls] using h.length_eq

/-- Witness for C3: a transport that raises a non-RequestException. -/
theorem dispatcher_isolates_task_failure_witness :
    (runTask (fun _ _ => TransportEvent.otherError)
        { URL := "https://broken.test", Langs := "", Status := "x" }).ResponseCode =
      ProbeOutcome.error ∧
      runTask (fun _ _ => TransportEvent.otherError)
          { URL := "https://broken.test", Langs := "", Status := "x" } ∈
        check_urls (fun _ _ => TransportEvent.otherError)
          [{ URL := "https://broken.test", Langs := "", Status := "x" }] ∧
      (check_urls (fun _ _ => TransportEvent.otherError)
          [{ URL := "https://broken.test", Langs := "", Status := "x" }]).length =
        ([{ URL := "https://broken.test", Langs := "", Status := "x" }] :
          List InputRecord).length :=
  dispatcher_isolates_task_failure _ _ _ _ (List.Perm.refl _)
    (List.mem_singleton_self _) rfl

/-- C4: when HEAD returns a status strictly below 400, `fetch_status` returns
exactly that HEAD status and never issues the GET request. -/
theorem head_ok_no_get (t : Transport) (c : Int)
    (hh : t Method.head = TransportEvent.status c) (hc : c < 400) :
    fetch_status t = (Except.ok (ProbeOutcome.code c), [Method.head]) := by
  have h4 : ¬ (400 ≤ c) := by omega
  simp [fetch_status, hh, h4]

/-- Witness for C4: HEAD returns 200 while GET would return 500. -/
theorem head_ok_no_get_witness :
    fetch_status (fun m => match m with
      | Method.head => TransportEvent.status 200
      | Method.get => TransportEvent.status 500) =
      (Except.ok (ProbeOutcome.code 200), [Method.head]) :=
  head_ok_no_get _ 200 rfl (by decide)

/-- C5: when HEAD returns a status of 400 or above and GET returns a status,
`fetch_status` returns the GET status, even when it differs from HEAD's. -/
theorem head_error_uses_get (t : Transport) (c c2 : Int)
    (hh : t Method.head = TransportEvent.status c) (hc : 400 ≤ c)
    (hg : t Method.get = TransportEvent.status c2) :
    fetch_status t = (Except.ok (ProbeOutcome.code c2), [Method.head, Method.get]) := by
  simp [fetch_status, hh, hc, hg]

/-- Witness for C5: HEAD returns 405, GET returns 200, probe reports 200. -/
theorem head_error_uses_get_witness :
    fetch_status (fun m => match m with
      | Method.head => TransportEvent.status 405
      | Method.get => TransportEvent.status 200) =
      (Except.ok (ProbeOutcome.code 200), [Method.head, Method.get]) :=
  head_error_uses_get _ 405 200 rfl (by decide) rfl

/-- C6: `fetch_status` issues the GET stage exactly when HEAD returned a
status of 400 or above (which covers an outright HEAD rejection such as 405),
in which case the GET status is used; a HEAD transport failure (e.g. timeout)
is reported directly as the ERROR marker without attempting GET. -/
theorem get_escalation_policy (t : Transport) :
    (Method.get ∈ (fetch_status t).2 ↔
      ∃ c : Int, t Method.head = TransportEvent.status c ∧ 400 ≤ c) ∧
    (∀ c c2 : Int, t Method.head = TransportEvent.status c → 400 ≤ c →
      t Method.get = TransportEvent.status c2 →
      (fetch_status t).1 = Except.ok (ProbeOutcome.code c2)) ∧
    (t Method.head = TransportEvent.transportError →
      fetch_status t = (Except.ok ProbeOutcome.error, [Method.head])) := by
  refine ⟨?_, ?_, ?_⟩
  · cases hh : t Method.head with
    | status c =>
      by_cases hc : 400 ≤ c
      · cases hg : t Method.get <;> simp [fetch_status, hh, hg, hc]
      · simp [fetch_status, hh, hc]
    | transportError => simp [fetch_status, hh]
    | otherError => simp [fetch_status, hh]
  · intro c c2 hh hc hg
    simp [fetch_status, hh, hc, hg]
  · intro hh
    simp [fetch_status, hh]

/-- Witness for C6: HEAD times out, no GET is attempted, ERROR reported. -/
theorem get_escalation_policy_witness :
    fetch_status (fun _ => TransportEvent.transportError) =
      (Except.ok ProbeOutcome.error, [Method.head]) :=
  (get_escalation_policy _).2.2 rfl

/-- C7: in every snapshot reachable during a dispatch run with concurrency
ceiling K, at most K probe tasks are executing simultaneously: K is a global
bound on concurrent probes. -/
theorem concurrency_ceiling (K n : Nat) (s : PoolState) (h : Reachable K n s) :
    s.running.length ≤ K := by
  induction h with
  | init => simp [initState]
  | step hr hs ih =>
    cases hs with
    | start i p run d hK => simpa using hK
    | finish i p r₁ r₂ d =>
      simp [List.length_append] at ih ⊢
      omega
    | ret d => simp

/-- Witness for C7: a reachable snapshot of a K=2 run with one task started. -/
theorem concurrency_ceiling_witness :
    (PoolState.mk [] [0] [] false).running.length ≤ 2 := by
  have h0 : Reachable 2 1 (PoolState.mk [0] [] [] false) := Reachable.init
  exact concurrency_ceiling 2 1 _ (h0.step (Step.start 0 [] [] [] (by decide)))

/-- C8: the dispatch returns only after every submitted probe task has
completed: in any reachable snapshot where `check_urls` has returned from the
dispatch block, the completed tasks are exactly the submitted ones (a full
barrier wait, with no partial result collection exposed). -/
theorem dispatch_full_barrier (K n : Nat) (s : PoolState) (h : Reachable K n s)
    (hret : s.returned = true) : List.Perm s.done (List.range n) := by
  obtain ⟨hp, hrun⟩ := pool_returned_empty K n s h hret
  have hm := pool_tracks_all_tasks K n s h
  rw [hp, hrun] at hm
  simpa using hm

/-- Witness for C8: a full K=1, n=1 run that starts, finishes and returns. -/
theorem dispatch_full_barrier_witness :
    List.Perm (PoolState.mk [] [] [0] true).done (List.range 1) := by
  have h0 : Reachable 1 1 (PoolState.mk [0] [] [] false) := Reachable.init
  have h1 : Reachable 1 1 (PoolState.mk [] [0] [] false) :=
    h0.step (Step.start 0 [] [] [] (by decide))
  have h2 : Reachable 1 1 (PoolState.mk [] [] [0] false) :=
    h1.step (Step.finish 0 [] [] [] [])
  have h3 : Reachable 1 1 (PoolState.mk [] [] [0] true) :=
    h2.step (Step.ret [0])
  exact dispatch_full_barrier 1 1 _ h3 rfl

/-- C9: with a fixed input and a deterministic transport, two dispatch runs
(with possibly different completion orders) yield the same multiset of result
records: the outputs are identical up to ordering. -/
theorem dispatch_idempotent_up_to_order (t : NetTransport) (rows o1 o2 : List InputRecord)
    (h1 : List.Perm o1 rows) (h2 : List.Perm o2 rows) :
    List.Perm (check_urls t o1) (check_urls t o2) :=
  (h1.trans h2.symm).map (runTask t)

/-- Witness for C9: two runs over the same two rows in opposite orders. -/
theorem dispatch_idempotent_up_to_order_witness :
    List.Perm
      (check_urls (fun _ _ => TransportEvent.status 200)
        [{ URL := "https://a.test", Langs := "", Status := "" },
         { URL := "https://b.test", Langs := "", Status := "" }])
      (check_urls (fun _ _ => TransportEvent.status 200)
        [{ URL := "https://b.test", Langs := "", Status := "" },
         { URL := "https://a.test", Langs := "", Status := "" }]) :=
  dispatch_idempotent_up_to_order _
    [{ URL := "https://a.test", Langs := "", Status := "" },
     { URL := "https://b.test", Langs := "", Status := "" }] _ _
    (List.Perm.refl _)
    (List.Perm.swap (InputRecord.mk "https://a.test" "" "")
      (InputRecord.mk "https://b.test" "" "") [])

/-- C10: `color_for_status` and `emoji_for_status` both factor through the
same four-way classifier with identical range boundaries (200-299 success,
300-399 redirect, 400-599 error, anything else unknown); every integer code
outside [200, 600) lands in the same unknown category as the ERROR marker. -/
theorem display_classification_consistent (o : ProbeOutcome) :
    color_for_status o = colorRender (statusCategory o) o ∧
      emoji_for_status o = emojiRender (statusCategory o) ∧
      (∀ n : Int, n < 200 ∨ 600 ≤ n →
        statusCategory (ProbeOutcome.code n) = StatusCategory.unknown) ∧
      statusCategory ProbeOutcome.error = StatusCategory.unknown := by
  refine ⟨?_, ?_, ?_, rfl⟩
  · cases o with
    | error => rfl
    | code n =>
      simp only [color_for_status, statusCategory]
      split_ifs <;> rfl
  · cases o with
    | error => rfl
    | code n =>
      simp only [emoji_for_status, statusCategory]
      split_ifs <;> rfl
  · intro n hn
    simp only [statusCategory]
    split_ifs with hc1 hc2 hc3
    · exact absurd hc1 (by omega)
    · exact absurd hc2 (by omega)
    · exact absurd hc3 (by omega)
    · rfl

/-- Witness for C10: a 1xx informational code is classified as unknown. -/
theorem display_classification_consistent_witness :
    statusCategory (ProbeOutcome.code 150) = StatusCategory.unknown :=
  (display_classification_consistent (ProbeOutcome.code 150)).2.2.1 150 (Or.inl (by decide))

end ChecksUrls
